import Mathlib

/-!
Verification of the whisper-dictate core against its natural-language
specification.

The Python sources are shallowly embedded: Python strings are `List Char`,
process identifiers are `Nat`, 16-bit audio samples are `Int` (with explicit
range hypotheses where the claim needs them), the audio level computed with
numpy floating point is modelled in exact rational arithmetic (`ℚ`), and the
filesystem / process effects of each function are made explicit as returned
state and action lists.
-/

namespace WhisperDictate

/-! ## Python string primitives (`str.strip`, `str.split` on a newline)

`whisper_dictate/transcriber.py` cleans the child process output with
`result.stdout.strip().split("\n")`, a per-line `strip()`, a filter of the
lines that are empty after stripping, and `" ".join(...)`.  We model Python
strings as `List Char`.
-/

/-- Python's notion of whitespace for `str.strip()` (ASCII subset: space,
tab, newline, carriage return, vertical tab, form feed). -/
def pyIsSpace (c : Char) : Bool :=
  c = ' ' || c = '\t' || c = '\n' || c = '\r' ||
  c = Char.ofNat 11 || c = Char.ofNat 12

/-- Drop Python-whitespace from the front (the left half of `str.strip`). -/
def stripLeft (l : List Char) : List Char :=
  l.dropWhile pyIsSpace

/-- Drop Python-whitespace from the back (the right half of `str.strip`). -/
def stripRight (l : List Char) : List Char :=
  (l.reverse.dropWhile pyIsSpace).reverse

/-- Python `str.strip()`: whitespace removed from both ends. -/
def pyStrip (l : List Char) : List Char :=
  stripRight (stripLeft l)

/-- Python `s.split("\n")`: split on every newline character; the result is
always non-empty, and splitting the empty string yields one empty field. -/
def splitNl : List Char → List (List Char)
  | [] => [[]]
  | c :: rest =>
    if c = '\n' then
      [] :: splitNl rest
    else
      match splitNl rest with
      | [] => [[c]]
      | h :: t => (c :: h) :: t

/-- The per-line cleaning of `Transcriber.transcribe`: split into lines,
strip each line, and drop the lines that are empty after stripping. -/
def cleanLines (l : List Char) : List (List Char) :=
  ((splitNl l).map pyStrip).filter (fun x => x ≠ [])

/-- The output cleaning exactly as written in `Transcriber.transcribe`
(`transcriber.py`): the whole stdout is first stripped, then split into
lines, each line stripped, empty lines discarded, and the rest joined with
single spaces. -/
def cleanOutput (stdout : List Char) : List Char :=
  List.intercalate [' '] (cleanLines (pyStrip stdout))

/-- Modelled from the spec's words for comparison: "the raw output is split
into lines, each trimmed, empty lines discarded, and the remaining lines
joined with single spaces" — with no preliminary strip of the whole
output. -/
def specCleanOutput (stdout : List Char) : List Char :=
  List.intercalate [' '] (cleanLines stdout)

/-- Helper used to describe `splitNl` of a list with one character appended:
apply a function to the last field of a non-empty list of fields. -/
def modLast (f : List Char → List Char) : List (List Char) → List (List Char)
  | [] => []
  | [x] => [f x]
  | x :: y :: t => x :: modLast f (y :: t)

/-! ## Transcriber (`whisper_dictate/transcriber.py`)

`Transcriber.transcribe` runs the external whisper CLI with
`subprocess.run(..., capture_output=True, text=True, timeout=...)` and **no**
`check=True`, so a child that exits with a non-zero status does not raise;
its captured stdout is cleaned and returned like any other.
`subprocess.TimeoutExpired` and every other exception (including a failure
to launch the executable) are caught and turned into the empty string.
The declared return type is a plain `str`.
-/

/-- Outcome of the `subprocess.run` call inside `Transcriber.transcribe`:
the child ran to completion with some exit code and captured stdout, the
timeout expired, or launching/running raised some other exception. -/
inductive RunOutcome where
  | completed (exitCode : Int) (stdout : List Char)
  | timedOut
  | launchFailed
  deriving DecidableEq

/-- `Transcriber.transcribe`, as written in `transcriber.py`: the exit code
of a completed child is never examined; timeouts and exceptions both return
the empty string. -/
def transcribe (o : RunOutcome) : List Char :=
  match o with
  | .completed _ stdout => cleanOutput stdout
  | .timedOut => []
  | .launchFailed => []

/-! ## Single-instance PID-file coordination (`whisper_dictate/utils.py`,
`whisper_dictate/cli.py`)

`is_already_running` reads `/tmp/whisper-dictate.pid` once; if its content
parses as an integer naming a live process it sends that process `SIGUSR1`
and returns `True`; a `ValueError` (unparseable content) or
`ProcessLookupError` (dead process) deletes the file and it returns
`False`.  `main` then either exits (`True`) or writes its own PID
(`write_pid`, an unconditional overwrite).

The marker file is modelled as `Option (List Char)` (absent, or present
with raw content), process liveness (`os.kill(pid, 0)`) as an oracle
`alive : Nat → Bool`, and the `SIGUSR1` deliveries performed by the call as
the returned `List Nat`.
-/

/-- Value of a decimal digit string (the digits of a PID). -/
def digitsToNat (l : List Char) : Nat :=
  l.foldl (fun n c => 10 * n + (c.toNat - 48)) 0

/-- Python `int(content.strip())` as used on the marker file, modelled for
the decimal content the program itself writes (`str(os.getpid())`): strip
the content, and accept a non-empty all-digit string.  Other exotic forms
Python's `int` tolerates (signs, underscores) never arise from `write_pid`
and are not distinguished here; every input used in a theorem below parses
(or fails to parse) identically under both readings. -/
def parsePid (content : List Char) : Option Nat :=
  let t := pyStrip content
  if !t.isEmpty && t.all Char.isDigit then some (digitsToNat t) else none

/-- Decimal representation written by `write_pid` (`str(os.getpid())`). -/
def pidDigits (pid : Nat) : List Char :=
  (Nat.repr pid).data

/-- `is_already_running` from `utils.py`.  Returns: the boolean result, the
marker after the call, and the list of processes that were sent `SIGUSR1`.
The `os.kill(pid, 0)` existence probe is zero-effect and is modelled by the
`alive` oracle alone. -/
def isAlreadyRunning (alive : Nat → Bool) (marker : Option (List Char)) :
    Bool × Option (List Char) × List Nat :=
  match marker with
  | none => (false, none, [])
  | some content =>
    match parsePid content with
    | none => (false, none, [])
    | some pid =>
      if alive pid then (true, some content, [pid])
      else (false, none, [])

/-- Result of one startup claim attempt, as the spec names it.  `main` in
`cli.py` has exactly these two outcomes: `sys.exit(0)` after
`is_already_running()` returned `True` (an existing instance was signalled),
or `write_pid()` (ownership claimed).  There is no error outcome. -/
inductive ClaimResult where
  | Claimed
  | SignaledExisting
  deriving DecidableEq

/-- The claim-or-signal step of `main` in `cli.py`:
`if is_already_running(): sys.exit(0)` else `write_pid()`.  Returns the
result, the marker after the attempt, and the `SIGUSR1` deliveries.
`write_pid` overwrites the marker location unconditionally. -/
def claimOrSignal (alive : Nat → Bool) (self : Nat) (marker : Option (List Char)) :
    ClaimResult × Option (List Char) × List Nat :=
  let r := isAlreadyRunning alive marker
  if r.1 then (.SignaledExisting, r.2.1, r.2.2)
  else (.Claimed, some (pidDigits self), r.2.2)

/-- One claim attempt run against an oracle of successive marker states
`fs`: each filesystem read of the marker consumes one entry.  The source
(`is_already_running`) reads the marker exactly once per attempt, so only
the head of the oracle is ever observed; the returned third component is
the part of the oracle the attempt never read. -/
def claimAttemptTrace (alive : Nat → Bool) (self : Nat)
    (fs : List (Option (List Char))) :
    ClaimResult × Option (List Char) × List (Option (List Char)) :=
  let observed := fs.headD none
  let r := claimOrSignal alive self observed
  (r.1, r.2.1, fs.tail)

/-! ## Audio recorder (`whisper_dictate/recorder.py`)

Chunks are modelled at sample granularity: a chunk is a `List Int` of
16-bit signed samples (the byte string `in_data` reinterpreted, as
`_audio_callback` itself does with `np.frombuffer(..., dtype=np.int16)`);
concatenation of chunks commutes with the two-bytes-per-sample encoding, so
the WAV payload is the flattened sample list.  The level computed by numpy
in float32 is modelled in exact rational arithmetic. -/

/-- The audio level computed in `_audio_callback`:
`np.abs(audio_data).mean() / 32768.0` over the samples of one chunk. -/
def level (samples : List Int) : ℚ :=
  (((samples.map (fun x => |x|)).sum : ℤ) : ℚ) / (samples.length : ℚ) / 32768

/-- State of an `AudioRecorder`: the `recording` flag, the accumulated
`audio_frames`, the temporary file name allocated by `start` (modelled as a
number), and whether the hardware stream is open. -/
structure RecorderState where
  recording : Bool
  audioFrames : List (List Int)
  tempFilePath : Option Nat
  streamOpen : Bool
  deriving DecidableEq

/-- `AudioRecorder._audio_callback`: if recording, append the chunk to
`audio_frames` and, when a level callback is registered, hand it
`level inData`.  Returns the new state and the level delivered to the
observer (if any). -/
def audioCallback (hasLevelCb : Bool) (s : RecorderState) (inData : List Int) :
    RecorderState × Option ℚ :=
  if s.recording then
    ({ s with audioFrames := s.audioFrames ++ [inData] },
     if hasLevelCb then some (level inData) else none)
  else
    (s, none)

/-- `AudioRecorder.start`: set `recording`, reset `audio_frames`, allocate
a fresh temporary file, open the input stream. -/
def startRecording (tmp : Nat) : RecorderState :=
  { recording := true, audioFrames := [], tempFilePath := some tmp, streamOpen := true }

/-- The WAV artifact written by `AudioRecorder.stop`: channel count 1,
sample width 2 bytes (`paInt16`), frame rate 16000, and the payload
`b"".join(self.audio_frames)`. -/
structure WavFile where
  nchannels : Nat
  sampwidth : Nat
  framerate : Nat
  payload : List Int
  deriving DecidableEq

/-- `AudioRecorder.stop`: if not recording, return `None` and change
nothing; otherwise clear the flag, stop and close the stream, and — when a
temp file was allocated and `audio_frames` is non-empty (Python truthiness
of `self.temp_file_path and self.audio_frames`) — write and return the WAV
artifact. -/
def stopRecording (s : RecorderState) : Option WavFile × RecorderState :=
  if s.recording then
    let s' : RecorderState :=
      { s with recording := false, streamOpen := false }
    match s.tempFilePath, s.audioFrames with
    | some _, _ :: _ =>
      (some { nchannels := 1, sampwidth := 2, framerate := 16000,
              payload := s.audioFrames.flatten }, s')
    | _, _ => (none, s')
  else
    (none, s)

/-- Deliver a sequence of chunks to the callback, in arrival order. -/
def feedChunks (s : RecorderState) (chunks : List (List Int)) : RecorderState :=
  chunks.foldl (fun st c => (audioCallback true st c).1) s

/-! ## Recorder window and session lifecycle (`whisper_dictate/window.py`)

The handlers are modelled as pure functions from window state to window
state plus a list of the externally visible actions they perform, in
program order.  The asynchronous continuations (`_transcribe_thread`,
`_on_transcription_done`, the `QTimer` close) are serialized after the
synchronous part in the causal order the Qt signal connections impose. -/

/-- Externally visible session actions. -/
inductive Act where
  | stopStream
  | wavWrite
  | runTranscribe
  | clipboardCopy
  | typeOut
  | cleanupArtifact
  | teardown
  | releaseMarker
  | visualizerStop
  | scheduleClose
  deriving DecidableEq

/-- Window state: the `RecorderWindow.recording` flag. -/
structure WinState where
  recording : Bool
  deriving DecidableEq

/-- Actions performed synchronously inside `stop_and_transcribe` past its
guard: `recorder.stop()` stops the stream and, when audio was captured,
writes the WAV artifact. -/
def stopSyncActs (hasAudio : Bool) : List Act :=
  Act.stopStream :: (if hasAudio then [Act.wavWrite] else [])

/-- `RecorderWindow.stop_and_transcribe` (synchronous part): a no-op when
`self.recording` is already false; otherwise clears the flag and runs
`recorder.stop()`, then either spawns the transcription thread or directly
emits `transcription_done` — both continuations are modelled by
`stopAsyncActs`. -/
def stopAndTranscribe (hasAudio : Bool) (w : WinState) : WinState × List Act :=
  if w.recording then
    ({ recording := false }, stopSyncActs hasAudio)
  else
    (w, [])

/-- `RecorderWindow.keyPressEvent`: Escape or Space triggers
`stop_and_transcribe`; any other key does nothing. -/
def keyPressEvent (isEscOrSpace hasAudio : Bool) (w : WinState) : WinState × List Act :=
  if isEscOrSpace then stopAndTranscribe hasAudio w else (w, [])

/-- The `stop_signal` slot (peer `SIGUSR1` relayed by `cli.main`'s handler):
connected directly to `stop_and_transcribe`. -/
def onStopSignal (hasAudio : Bool) (w : WinState) : WinState × List Act :=
  stopAndTranscribe hasAudio w

/-- `RecorderWindow.closeEvent`: while recording, runs
`stop_and_transcribe` and ignores the close (third component `false`);
otherwise stops the visualizer, removes the PID marker, and accepts the
close (third component `true`). -/
def closeEvent (hasAudio : Bool) (w : WinState) : WinState × List Act × Bool :=
  if w.recording then
    let r := stopAndTranscribe hasAudio w
    (r.1, r.2, false)
  else
    (w, [Act.visualizerStop, Act.releaseMarker], true)

/-- `RecorderWindow._transcribe_thread`: run the transcriber; on non-empty
text copy to the clipboard and, in type mode, also type it; in the
`finally` block remove the temporary audio file; then emit
`transcription_done`. -/
def transcribeThreadActs (textNonEmpty typeMode : Bool) : List Act :=
  Act.runTranscribe ::
    ((if textNonEmpty then
        Act.clipboardCopy :: (if typeMode then [Act.typeOut] else [])
      else []) ++ [Act.cleanupArtifact])

/-- `RecorderWindow._on_transcription_done`: tear down the recorder
(`recorder.cleanup()`), remove the PID marker (`cleanup_pid()`), and
schedule the window close. -/
def onTranscriptionDoneActs : List Act :=
  [Act.teardown, Act.releaseMarker, Act.scheduleClose]

/-- The asynchronous continuation of a stop: the transcription thread when
an artifact exists (note: no artifact means `cleanup_temp_file` is never
reached), followed in causal order by `_on_transcription_done`. -/
def stopAsyncActs (hasAudio textNonEmpty typeMode : Bool) : List Act :=
  (if hasAudio then transcribeThreadActs textNonEmpty typeMode else []) ++
    onTranscriptionDoneActs

/-- The three sources of a stop request in the source: a key press, the
peer stop signal, and a window close while recording. -/
inductive StopSource where
  | keyEvent
  | peerSignal
  | windowClose
  deriving DecidableEq

/-- The full action trace of a session from `Recording` to the final
accepted close, triggered by `src`: the synchronous stop handling, the
asynchronous continuation, and the scheduled `closeEvent` (which fires with
`recording = false`). -/
def sessionTrace (src : StopSource) (hasAudio textNonEmpty typeMode : Bool) :
    List Act :=
  let w0 : WinState := { recording := true }
  let step :=
    match src with
    | .keyEvent => keyPressEvent true hasAudio w0
    | .peerSignal => onStopSignal hasAudio w0
    | .windowClose => ((closeEvent hasAudio w0).1, (closeEvent hasAudio w0).2.1)
  let finalClose := closeEvent hasAudio step.1
  step.2 ++ stopAsyncActs hasAudio textNonEmpty typeMode ++ finalClose.2.1

/-- Boolean subsequence test, used to state in-order occurrence of actions
inside a trace. -/
def isSubseqOf {α : Type} [DecidableEq α] : List α → List α → Bool
  | [], _ => true
  | _ :: _, [] => false
  | a :: as, b :: bs =>
    if a = b then isSubseqOf as bs else isSubseqOf (a :: as) bs

/-! ## Lemmas about the output cleaning -/

theorem splitNl_ne_nil : ∀ l : List Char, splitNl l ≠ []
  | [] => by simp [splitNl]
  | c :: rest => by
    simp only [splitNl]
    split
    · simp
    · split <;> simp

theorem splitNl_eq_cons (l : List Char) : ∃ a b, splitNl l = a :: b := by
  cases h : splitNl l with
  | nil => exact absurd h (splitNl_ne_nil l)
  | cons a b => exact ⟨a, b, rfl⟩

theorem splitNl_cons_nl (t : List Char) : splitNl ('\n' :: t) = [] :: splitNl t := by
  simp [splitNl]

theorem splitNl_cons_ne (c : Char) (t : List Char) (h : c ≠ '\n')
    (a : List Char) (b : List (List Char)) (hsp : splitNl t = a :: b) :
    splitNl (c :: t) = (c :: a) :: b := by
  simp [splitNl, if_neg h, hsp]

theorem pyStrip_cons_ws (c : Char) (l : List Char) (h : pyIsSpace c = true) :
    pyStrip (c :: l) = pyStrip l := by
  simp [pyStrip, stripLeft, List.dropWhile_cons, h]

theorem cleanLines_cons_ws (c : Char) (l : List Char) (h : pyIsSpace c = true) :
    cleanLines (c :: l) = cleanLines l := by
  by_cases hnl : c = '\n'
  · subst hnl
    simp only [cleanLines, splitNl, if_pos rfl]
    simp [pyStrip, stripLeft, stripRight]
  · obtain ⟨h1, t1, ht⟩ : ∃ h1 t1, splitNl l = h1 :: t1 := by
      cases hsp : splitNl l with
      | nil => exact absurd hsp (splitNl_ne_nil l)
      | cons a b => exact ⟨a, b, rfl⟩
    simp only [cleanLines, splitNl, if_neg hnl, ht, List.map_cons,
      pyStrip_cons_ws c h1 h]

theorem cleanLines_stripLeft (l : List Char) :
    cleanLines (stripLeft l) = cleanLines l := by
  induction l with
  | nil => rfl
  | cons c t ih =>
    by_cases h : pyIsSpace c
    · rw [show stripLeft (c :: t) = stripLeft t by
        simp [stripLeft, List.dropWhile_cons, h]]
      rw [ih, cleanLines_cons_ws c t h]
    · rw [show stripLeft (c :: t) = c :: t by
        simp [stripLeft, List.dropWhile_cons, h]]

theorem stripRight_concat (l : List Char) (c : Char) :
    stripRight (l ++ [c]) = if pyIsSpace c then stripRight l else l ++ [c] := by
  by_cases h : pyIsSpace c <;>
    simp [stripRight, List.dropWhile_cons, h]

theorem pyStrip_concat_ws (l : List Char) (c : Char) (h : pyIsSpace c = true) :
    pyStrip (l ++ [c]) = pyStrip l := by
  unfold pyStrip stripLeft
  rw [List.dropWhile_append]
  by_cases he : (List.dropWhile pyIsSpace l).isEmpty
  · rw [if_pos he]
    rw [List.isEmpty_iff] at he
    rw [he]
    simp [List.dropWhile_cons, h]
  · rw [if_neg he, stripRight_concat, if_pos h]

theorem splitNl_concat_nl (l : List Char) :
    splitNl (l ++ ['\n']) = splitNl l ++ [[]] := by
  induction l with
  | nil => rfl
  | cons c t ih =>
    by_cases h : c = '\n'
    · subst h
      show splitNl ('\n' :: (t ++ ['\n'])) = splitNl ('\n' :: t) ++ [[]]
      rw [splitNl_cons_nl, splitNl_cons_nl, ih]
      rfl
    · obtain ⟨a, b, hsp⟩ := splitNl_eq_cons t
      have hsp2 : splitNl (t ++ ['\n']) = a :: (b ++ [[]]) := by
        rw [ih, hsp]; rfl
      show splitNl (c :: (t ++ ['\n'])) = splitNl (c :: t) ++ [[]]
      rw [splitNl_cons_ne c _ h _ _ hsp2, splitNl_cons_ne c t h a b hsp]
      rfl

theorem splitNl_concat_ne (l : List Char) (c : Char) (h : c ≠ '\n') :
    splitNl (l ++ [c]) = modLast (fun x => x ++ [c]) (splitNl l) := by
  induction l with
  | nil =>
    show splitNl [c] = modLast (fun x => x ++ [c]) (splitNl [])
    rw [show splitNl ([] : List Char) = [[]] from rfl,
      splitNl_cons_ne c [] h [] [] rfl]
    rfl
  | cons c' t ih =>
    obtain ⟨a, b, hsp⟩ := splitNl_eq_cons t
    by_cases h' : c' = '\n'
    · subst h'
      show splitNl ('\n' :: (t ++ [c])) = modLast (fun x => x ++ [c]) (splitNl ('\n' :: t))
      rw [splitNl_cons_nl, splitNl_cons_nl, ih, hsp]
      rfl
    · show splitNl (c' :: (t ++ [c])) = modLast (fun x => x ++ [c]) (splitNl (c' :: t))
      have ht2 : splitNl (t ++ [c]) = modLast (fun x => x ++ [c]) (a :: b) := by
        rw [ih, hsp]
      cases b with
      | nil =>
        have ht3 : splitNl (t ++ [c]) = [a ++ [c]] := by rw [ht2]; rfl
        rw [splitNl_cons_ne c' _ h' _ _ ht3, splitNl_cons_ne c' t h' a [] hsp]
        rfl
      | cons a2 b2 =>
        have ht3 : splitNl (t ++ [c]) = a :: modLast (fun x => x ++ [c]) (a2 :: b2) := by
          rw [ht2]; rfl
        rw [splitNl_cons_ne c' _ h' _ _ ht3, splitNl_cons_ne c' t h' a (a2 :: b2) hsp]
        rfl

theorem map_pyStrip_modLast_ws (c : Char) (h : pyIsSpace c = true) :
    ∀ L : List (List Char),
      (modLast (fun x => x ++ [c]) L).map pyStrip = L.map pyStrip
  | [] => rfl
  | [x] => by simp [modLast, pyStrip_concat_ws x c h]
  | x :: y :: t => by
    show (x :: modLast (fun z => z ++ [c]) (y :: t)).map pyStrip =
      (x :: y :: t).map pyStrip
    rw [List.map_cons, List.map_cons, map_pyStrip_modLast_ws c h (y :: t)]

theorem cleanLines_concat_ws (l : List Char) (c : Char) (h : pyIsSpace c = true) :
    cleanLines (l ++ [c]) = cleanLines l := by
  by_cases hnl : c = '\n'
  · subst hnl
    simp only [cleanLines, splitNl_concat_nl, List.map_append, List.filter_append]
    simp [pyStrip, stripLeft, stripRight]
  · rw [cleanLines, splitNl_concat_ne l c hnl, map_pyStrip_modLast_ws c h, cleanLines]

theorem cleanLines_stripRight (l : List Char) :
    cleanLines (stripRight l) = cleanLines l := by
  induction l using List.reverseRecOn with
  | nil => rfl
  | append_singleton t c ih =>
    by_cases h : pyIsSpace c
    · rw [stripRight_concat, if_pos h, ih, cleanLines_concat_ws t c h]
    · rw [stripRight_concat, if_neg h]

theorem cleanLines_pyStrip (l : List Char) :
    cleanLines (pyStrip l) = cleanLines l := by
  rw [pyStrip, cleanLines_stripRight, cleanLines_stripLeft]

/-! ## The claims -/

/-- Claim C4: for every raw stdout string of a successful run, `transcribe`
returns exactly the string obtained by splitting the output into lines,
trimming each line, discarding the lines that are empty after trimming,
and joining the rest with single spaces (the code's extra whole-output
strip makes no difference); in particular the input with the two words
separated by a blank line yields exactly the two words joined by one
space. -/
theorem C4_output_cleaning :
    (∀ stdout : List Char,
      transcribe (.completed 0 stdout) = specCleanOutput stdout) ∧
    transcribe (.completed 0 (("Hello\n\nworld\n").data)) = ("Hello world").data := by
  constructor
  · intro s
    show cleanOutput s = specCleanOutput s
    rw [cleanOutput, specCleanOutput, cleanLines_pyStrip]
  · decide

/-- Claim C1 counterexample: `Transcriber.transcribe` returns a plain
string with no failure variants.  A child that exits with status 1 has its
cleaned stdout returned exactly as on success (no `ProcessError`), and a
run whose cleaned output is empty returns the empty string — the very same
value returned for a launch failure and for a timeout, so no failure mode
is distinguishable from "success with no text". -/
theorem C1_counterexample :
    transcribe (.completed 1 (("whisper output").data)) = ("whisper output").data ∧
    transcribe (.completed 0 (("\n\n\n").data)) = [] ∧
    transcribe .launchFailed = [] ∧
    transcribe .timedOut = [] := by
  exact ⟨by decide, by decide, rfl, rfl⟩

/-- Claim C1, amended: `transcribe` has no explicit failure channel.  The
exit code of a completed child never influences the result (non-zero exit is
returned as cleaned stdout, as if successful), a timeout and a launch
failure both return the empty string, and an empty cleaned output is
returned as the empty string, indistinguishable from those hard
failures. -/
theorem C1_amended_no_failure_channel :
    (∀ (code₁ code₂ : Int) (stdout : List Char),
      transcribe (.completed code₁ stdout) = transcribe (.completed code₂ stdout)) ∧
    (∀ (code : Int) (stdout : List Char),
      transcribe (.completed code stdout) = cleanOutput stdout) ∧
    transcribe .timedOut = [] ∧
    transcribe .launchFailed = [] :=
  ⟨fun _ _ _ => rfl, fun _ _ => rfl, rfl, rfl⟩

/-- Claim C5: with no marker present, `claimOrSignal` returns `Claimed` and
leaves a marker holding the caller's own process identifier (and sends no
signal); with a marker present whose recorded process is alive, it sends
that process the stop signal (`SIGUSR1`), returns `SignaledExisting`, and
leaves the marker contents unchanged. -/
theorem C5_claim_or_signal :
    (∀ (alive : Nat → Bool) (self : Nat),
      claimOrSignal alive self none = (.Claimed, some (pidDigits self), [])) ∧
    (∀ (alive : Nat → Bool) (self p : Nat) (content : List Char),
      parsePid content = some p → alive p = true →
      claimOrSignal alive self (some content) =
        (.SignaledExisting, some content, [p])) := by
  constructor
  · intro alive self
    rfl
  · intro alive self p content hp ha
    simp [claimOrSignal, isAlreadyRunning, hp, ha]

/-- Witness for C5 at a concrete state: PID 123 is the only live process;
a fresh claim by process 7 claims, a second claim against live owner 123
signals it and leaves the marker untouched. -/
theorem C5_witness :
    claimOrSignal (fun q => q == 123) 7 none = (.Claimed, some (pidDigits 7), []) ∧
    claimOrSignal (fun q => q == 123) 7 (some (("123").data)) =
      (.SignaledExisting, some (("123").data), [123]) :=
  ⟨C5_claim_or_signal.1 (fun q => q == 123) 7,
   C5_claim_or_signal.2 (fun q => q == 123) 7 123 (("123").data)
     (by decide) (by decide)⟩

/-- Claim C10: a marker whose content does not parse as a decimal integer
is treated exactly like a stale marker: `is_already_running` deletes the
file, reports that no instance is running, sends no signal, and the
invocation proceeds to claim ownership (writing its own identifier). -/
theorem C10_unparseable_marker :
    ∀ (alive : Nat → Bool) (self : Nat) (content : List Char),
      parsePid content = none →
      (isAlreadyRunning alive (some content)).1 = false ∧
      (isAlreadyRunning alive (some content)).2.1 = none ∧
      claimOrSignal alive self (some content) =
        (.Claimed, some (pidDigits self), []) := by
  intro alive self content h
  refine ⟨?_, ?_, ?_⟩ <;> simp [claimOrSignal, isAlreadyRunning, h]

/-- Witness for C10 at the concrete unparseable marker content
"pid?garbage". -/
theorem C10_witness :
    (isAlreadyRunning (fun _ => true) (some (("pid?garbage").data))).1 = false ∧
    (isAlreadyRunning (fun _ => true) (some (("pid?garbage").data))).2.1 = none ∧
    claimOrSignal (fun _ => true) 9 (some (("pid?garbage").data)) =
      (.Claimed, some (pidDigits 9), []) :=
  C10_unparseable_marker (fun _ => true) 9 (("pid?garbage").data) (by decide)

/-- Claim C2 counterexample: the claim asserts that a second stale marker
within one claim attempt is reported as a fatal error.  The source reads
the marker exactly once per attempt (`is_already_running` performs a single
`PID_FILE.read_text()`), and the result type of the attempt in `cli.main`
has only the two outcomes `Claimed` and `SignaledExisting` — there is no
fatal-error outcome at all.  Concretely, an attempt run against an
environment whose successive marker states are two different stale markers
(owners 111 and 222, neither alive) returns `Claimed`, overwrites the
marker with the caller's own identifier, and never reads the second state
(it is returned unconsumed), rather than reporting any fatal error. -/
theorem C2_counterexample :
    claimAttemptTrace (fun _ => false) 42
        [some (("111").data), some (("222").data)] =
      (.Claimed, some (("42").data), [some (("222").data)]) := by
  decide

/-- Claim C2, amended: when a claim attempt finds a stale marker (dead
owner, or unparseable content), it deletes it and the claim succeeds
immediately within the same attempt, leaving a marker with the caller's own
identifier and sending no signal.  The marker is read only once per
attempt — the attempt's outcome depends only on the first observed marker
state and later filesystem states are never read — so a second stale marker
is never encountered, and no fatal error is ever reported (the attempt has
no error outcome). -/
theorem C2_amended_stale_reclaim :
    ∀ (alive : Nat → Bool) (self : Nat) (content : List Char),
      (parsePid content = none ∨
        ∃ p, parsePid content = some p ∧ alive p = false) →
      claimOrSignal alive self (some content) =
        (.Claimed, some (pidDigits self), []) ∧
      (∀ fs : List (Option (List Char)),
        (claimAttemptTrace alive self fs).2.2 = fs.tail) ∧
      (∀ (o : Option (List Char)) (rest rest' : List (Option (List Char))),
        (claimAttemptTrace alive self (o :: rest)).1 =
          (claimAttemptTrace alive self (o :: rest')).1) := by
  intro alive self content h
  refine ⟨?_, fun fs => rfl, fun o rest rest' => rfl⟩
  rcases h with h | ⟨p, hp, hd⟩
  · simp [claimOrSignal, isAlreadyRunning, h]
  · simp [claimOrSignal, isAlreadyRunning, hp, hd]

/-- Witness for C2's amended claim at a concrete stale marker (dead owner
17, claimed by process 7). -/
theorem C2_amended_witness :
    claimOrSignal (fun _ => false) 7 (some (("17").data)) =
      (.Claimed, some (pidDigits 7), []) :=
  (C2_amended_stale_reclaim (fun _ => false) 7 (("17").data)
    (Or.inr ⟨17, by decide, rfl⟩)).1

theorem feedChunks_recording (chunks : List (List Int)) :
    ∀ s : RecorderState, s.recording = true →
      feedChunks s chunks = { s with audioFrames := s.audioFrames ++ chunks } := by
  induction chunks with
  | nil =>
    intro s _
    simp [feedChunks]
  | cons c cs ih =>
    intro s h
    have h1 : (audioCallback true s c).1 =
        { s with audioFrames := s.audioFrames ++ [c] } := by
      simp [audioCallback, h]
    have h2 : feedChunks s (c :: cs) = feedChunks ((audioCallback true s c).1) cs := rfl
    rw [h2, h1, ih { s with audioFrames := s.audioFrames ++ [c] } h]
    simp

/-- Claim C6: for every non-empty sequence of chunks delivered to the
callback while capturing, the artifact returned by `stop` is a WAV file in
the fixed format (1 channel, 2-byte samples, 16000 Hz) whose PCM payload is
exactly the concatenation of the chunks in arrival order. -/
theorem C6_payload_concatenation :
    ∀ (tmp : Nat) (chunks : List (List Int)), chunks ≠ [] →
      stopRecording (feedChunks (startRecording tmp) chunks) =
        (some { nchannels := 1, sampwidth := 2, framerate := 16000,
                payload := chunks.flatten },
         { recording := false, audioFrames := chunks,
           tempFilePath := some tmp, streamOpen := false }) := by
  intro tmp chunks hne
  have hfeed : feedChunks (startRecording tmp) chunks =
      { recording := true, audioFrames := chunks,
        tempFilePath := some tmp, streamOpen := true } := by
    rw [feedChunks_recording chunks (startRecording tmp) rfl]
    rfl
  rw [hfeed]
  cases chunks with
  | nil => exact absurd rfl hne
  | cons c cs => rfl

/-- Witness for C6 at the concrete chunk sequence `[[1, 2], [3]]`. -/
theorem C6_witness :
    ([[1, 2], [3]] : List (List Int)) ≠ [] ∧
    stopRecording (feedChunks (startRecording 0) [[1, 2], [3]]) =
      (some { nchannels := 1, sampwidth := 2, framerate := 16000,
              payload := ([[1, 2], [3]] : List (List Int)).flatten },
       { recording := false, audioFrames := [[1, 2], [3]],
         tempFilePath := some 0, streamOpen := false }) :=
  ⟨by decide, C6_payload_concatenation 0 [[1, 2], [3]] (by decide)⟩

/-- Claim C7: for every non-empty chunk of 16-bit samples arriving while
recording, the callback hands the observer exactly
`mean(|sample|) / 32768`, this value lies in `[0, 1]` (also for chunks
containing the minimum sample value `-32768`), and an all-zero chunk yields
exactly `0`.  The numpy float32 computation is modelled in exact rational
arithmetic. -/
theorem C7_level_bounds :
    ∀ (samples : List Int) (s : RecorderState),
      s.recording = true →
      samples ≠ [] →
      (∀ x ∈ samples, -32768 ≤ x ∧ x ≤ 32767) →
      (audioCallback true s samples).2 = some (level samples) ∧
      level samples =
        (((samples.map (fun x => |x|)).sum : ℤ) : ℚ) / (samples.length : ℚ) / 32768 ∧
      0 ≤ level samples ∧ level samples ≤ 1 ∧
      ((∀ x ∈ samples, x = 0) → level samples = 0) := by
  intro samples s hrec hne hb
  refine ⟨by simp [audioCallback, hrec], rfl, ?_, ?_, ?_⟩
  · unfold level
    apply div_nonneg
    apply div_nonneg
    · have hs : (0 : ℤ) ≤ (samples.map (fun x => |x|)).sum := by
        apply List.sum_nonneg
        intro y hy
        obtain ⟨x, _, rfl⟩ := List.mem_map.mp hy
        exact abs_nonneg x
      exact_mod_cast hs
    · positivity
    · norm_num
  · unfold level
    rw [div_div]
    have hlen : 0 < samples.length := List.length_pos.mpr hne
    have hlenq : (0 : ℚ) < (samples.length : ℚ) := by exact_mod_cast hlen
    rw [div_le_one (by positivity)]
    have hsum : (samples.map (fun x => |x|)).sum ≤ (32768 : ℤ) * samples.length := by
      have hbd : ∀ y ∈ samples.map (fun x => |x|), y ≤ (32768 : ℤ) := by
        intro y hy
        obtain ⟨x, hx, rfl⟩ := List.mem_map.mp hy
        have hbx := hb x hx
        exact abs_le.mpr ⟨by linarith [hbx.1], by linarith [hbx.2]⟩
      have := List.sum_le_card_nsmul (samples.map (fun x => |x|)) (32768 : ℤ) hbd
      simpa [List.length_map, nsmul_eq_mul, mul_comm] using this
    have h2 : ((samples.map (fun x => |x|)).sum : ℚ) ≤
        32768 * (samples.length : ℚ) := by exact_mod_cast hsum
    linarith
  · intro hz
    unfold level
    have hs0 : (samples.map (fun x => |x|)).sum = 0 := by
      apply List.sum_eq_zero
      intro y hy
      obtain ⟨x, hx, rfl⟩ := List.mem_map.mp hy
      rw [hz x hx]
      simp
    rw [hs0]
    simp

/-- Witness for C7 at the concrete chunk `[0, -32768, 32767]` (containing
the minimum representable sample). -/
theorem C7_witness :
    (audioCallback true (startRecording 0) [0, -32768, 32767]).2 =
      some (level [0, -32768, 32767]) ∧
    0 ≤ level [0, -32768, 32767] ∧ level [0, -32768, 32767] ≤ 1 := by
  have h := C7_level_bounds [0, -32768, 32767] (startRecording 0) rfl
    (by decide) (by decide)
  exact ⟨h.1, h.2.2.1, h.2.2.2.1⟩

/-- Claim C9: `stop` after a capture during which zero chunks were appended
returns no artifact, and `stop` while not capturing returns no artifact and
changes nothing; neither is an error. -/
theorem C9_stop_without_audio :
    (∀ s : RecorderState, s.recording = false → stopRecording s = (none, s)) ∧
    (∀ tmp : Nat,
      stopRecording (feedChunks (startRecording tmp) []) =
        (none, { recording := false, audioFrames := [],
                 tempFilePath := some tmp, streamOpen := false })) := by
  constructor
  · intro s h
    simp [stopRecording, h]
  · intro tmp
    rfl

/-- Witness for C9 at a concrete idle state and a concrete zero-chunk
capture. -/
theorem C9_witness :
    stopRecording { recording := false, audioFrames := [[5]],
                    tempFilePath := some 3, streamOpen := false } =
      (none, { recording := false, audioFrames := [[5]],
               tempFilePath := some 3, streamOpen := false }) ∧
    stopRecording (feedChunks (startRecording 2) []) =
      (none, { recording := false, audioFrames := [],
               tempFilePath := some 2, streamOpen := false }) :=
  ⟨C9_stop_without_audio.1 _ rfl, C9_stop_without_audio.2 2⟩

/-- Claim C3 counterexample: the three finalization steps do **not** each
run exactly once on every path to the closed state.  On the
audio-captured path the ownership-marker removal (`cleanup_pid`) runs
twice — once in `_on_transcription_done` and again in the final
`closeEvent` — and on the no-audio path the temporary-artifact removal
(`recorder.cleanup_temp_file`) never runs at all, because it sits in the
`finally` block of the transcription thread, which is only spawned when
`recorder.stop()` returned an artifact. -/
theorem C3_counterexample :
    (sessionTrace .keyEvent true true false).count Act.releaseMarker = 2 ∧
    (sessionTrace .keyEvent false false false).count Act.cleanupArtifact = 0 := by
  exact ⟨by decide, by decide⟩

/-- Claim C3, amended: on every path by which a session reaches the final
accepted close, the hardware teardown (`recorder.cleanup`) runs exactly
once; the ownership-marker removal runs exactly twice (both removals are
idempotent); the temporary-artifact removal runs exactly once on the paths
where an artifact was produced and never otherwise; and whenever all
three steps occur, they occur in the order artifact removal, then
teardown, then marker removal (the marker's first removal). -/
theorem C3_amended_finalization :
    ∀ (src : StopSource) (hasAudio textNonEmpty typeMode : Bool),
      (sessionTrace src hasAudio textNonEmpty typeMode).count Act.teardown = 1 ∧
      (sessionTrace src hasAudio textNonEmpty typeMode).count Act.releaseMarker = 2 ∧
      (sessionTrace src hasAudio textNonEmpty typeMode).count Act.cleanupArtifact =
        (if hasAudio then 1 else 0) ∧
      (hasAudio = true →
        isSubseqOf [Act.cleanupArtifact, Act.teardown, Act.releaseMarker]
          (sessionTrace src hasAudio textNonEmpty typeMode) = true) := by
  intro src a t m
  cases src <;> cases a <;> cases t <;> cases m <;> decide

/-- Witness for C3's amended claim at a concrete session (peer-signalled
stop, audio captured, non-empty text, type mode). -/
theorem C3_witness :
    (sessionTrace .peerSignal true true true).count Act.teardown = 1 ∧
    isSubseqOf [Act.cleanupArtifact, Act.teardown, Act.releaseMarker]
      (sessionTrace .peerSignal true true true) = true :=
  ⟨(C3_amended_finalization .peerSignal true true true).1,
   (C3_amended_finalization .peerSignal true true true).2.2.2 rfl⟩

/-- Claim C8 counterexample: the claim counts a window close among the stop
requests and asserts every stop request after `Recording` is a no-op that
changes no state.  In the source, a window close arriving once
`self.recording` is false is not ignored: `closeEvent` stops the
visualizer, removes the ownership marker (`cleanup_pid`), and accepts the
close. -/
theorem C8_counterexample :
    closeEvent true { recording := false } =
      ({ recording := false }, [Act.visualizerStop, Act.releaseMarker], true) := by
  rfl

/-- Claim C8, amended: only the first stop request triggers the stream stop
and transcription.  Once the session has left the recording state, stop
requests funnelled through `stop_and_transcribe` — key events, the peer
stop signal, and a close-while-recording — are no-ops that change no state;
a window close at that point is no longer treated as a stop request: it is
accepted and performs the window's own final cleanup (visualizer stop and
marker removal), and on no path does a second stream stop or a second
transcription occur. -/
theorem C8_amended_stop_idempotent :
    ∀ (hasAudio : Bool) (w : WinState), w.recording = false →
      stopAndTranscribe hasAudio w = (w, []) ∧
      keyPressEvent true hasAudio w = (w, []) ∧
      onStopSignal hasAudio w = (w, []) ∧
      closeEvent hasAudio w = (w, [Act.visualizerStop, Act.releaseMarker], true) ∧
      (closeEvent hasAudio w).2.1.count Act.stopStream = 0 ∧
      (closeEvent hasAudio w).2.1.count Act.runTranscribe = 0 := by
  intro hasAudio w h
  cases w with
  | mk r =>
    have hr : r = false := h
    subst hr
    cases hasAudio <;> decide

/-- Witness for C8's amended claim at the concrete post-recording state. -/
theorem C8_witness :
    stopAndTranscribe true { recording := false } = ({ recording := false }, []) ∧
    onStopSignal true { recording := false } = ({ recording := false }, []) := by
  have h := C8_amended_stop_idempotent true { recording := false } rfl
  exact ⟨h.1, h.2.2.1⟩

end WhisperDictate
